import Mathlib

/-!
Shallow embedding of the AI-Powered-Resume-Analyzer application (src/app.py).

Python strings are modelled as `List Char` (`Str`).  The three functions with
real behaviour are embedded: `extract_text_from_pdf`, `select_supported_model`
and `analyze_resume` (with its error-classification block).  External effects
(pdfplumber, OCR, the generative-language API) are modelled by explicit input
data: a `PdfDoc` records what the two extraction stages would yield, and a
`RemoteEnv` records the outcomes of the remote calls.
-/

/-- Python `str` modelled as a list of characters. -/
abbrev Str := List Char

/-- Whitespace characters stripped by Python `str.strip()`. -/
def isWS (c : Char) : Bool :=
  c = ' ' || c = '\t' || c = '\n' || c = '\r' || c = '\x0b' || c = '\x0c'

/-- Python `str.strip()`: drop whitespace from both ends. -/
def pstrip (s : Str) : Str :=
  ((s.dropWhile isWS).reverse.dropWhile isWS).reverse

/-- Does `pat` occur at the start of `s`?  (Python `str.startswith`.) -/
def leadsWith : Str → Str → Bool
  | [], _ => true
  | _ :: _, [] => false
  | p :: ps, c :: cs => p = c && leadsWith ps cs

/-- Python substring test `pat in s`. -/
def isSub (pat : Str) : Str → Bool
  | [] => leadsWith pat []
  | c :: t => leadsWith pat (c :: t) || isSub pat t

/-- Python `str.lower()` (ASCII case folding suffices for the messages used). -/
def pyLower (s : Str) : Str := s.map Char.toLower

/-! ## Text extractor (src/app.py, `extract_text_from_pdf`)

A `PdfDoc` records what the two stages of extraction would observe:
`pages` holds the `page.extract_text()` result for each page the direct
stage processes before (possibly) raising, `directFails` says whether the
direct stage then raises; `ocrPages` holds the per-page
`pytesseract.image_to_string` outputs produced before (possibly) raising,
and `ocrFails` says whether the OCR stage then raises. -/

structure PdfDoc where
  pages : List (Option Str)
  directFails : Bool
  ocrPages : List Str
  ocrFails : Bool

/-- Result of `extract_text_from_pdf` plus whether the OCR fallback ran.
`result` is an `Except` so that "the function raises" is representable;
the theorems show it never does. -/
structure ExtractTrace where
  result : Except Unit Str
  ocrInvoked : Bool

/-- Accumulation of the direct-extraction loop:
`for page in pdf.pages: page_text = page.extract_text(); if page_text: text += page_text`. -/
def directText (pages : List (Option Str)) : Str :=
  pages.foldl
    (fun acc r =>
      match r with
      | some t => if t.isEmpty then acc else acc ++ t
      | none => acc)
    []

/-- Accumulation of the OCR loop starting from the text already accumulated:
`for image in images: text += pytesseract.image_to_string(image) + "\n"`. -/
def ocrAccum (text : Str) (outs : List Str) : Str :=
  outs.foldl (fun acc o => acc ++ o ++ ['\n']) text

/-- `extract_text_from_pdf(pdf_path)` from src/app.py.  The direct stage
runs inside a `try`; on success with non-blank stripped text it returns
immediately (OCR never invoked).  Otherwise — direct stage raised, or the
stripped text was empty — the OCR fallback runs on the same accumulator,
its own failure is caught, and the stripped accumulator is returned. -/
def extract_text_from_pdf (doc : PdfDoc) : ExtractTrace :=
  let text := directText doc.pages
  if !doc.directFails && !(pstrip text).isEmpty then
    { result := Except.ok (pstrip text), ocrInvoked := false }
  else
    { result := Except.ok (pstrip (ocrAccum text doc.ocrPages)), ocrInvoked := true }

/-! ### Lemmas about stripping and accumulation -/

theorem directText_eq_flatten (pages : List (Option Str)) :
    directText pages = (pages.map (fun p => p.getD [])).flatten := by
  suffices h : ∀ acc : Str,
      pages.foldl
        (fun acc r =>
          match r with
          | some t => if t.isEmpty then acc else acc ++ t
          | none => acc)
        acc = acc ++ (pages.map (fun p => p.getD [])).flatten by
    simpa [directText] using h []
  induction pages with
  | nil => intro acc; simp
  | cons p ps ih =>
    intro acc
    cases p with
    | none =>
      rw [List.foldl_cons, ih]
      simp
    | some t =>
      rw [List.foldl_cons, ih]
      by_cases ht : t.isEmpty
      · have hnil : t = [] := List.isEmpty_iff.mp ht
        simp [hnil, ht]
      · simp [ht]

theorem ocrAccum_eq_append (text : Str) (outs : List Str) :
    ocrAccum text outs = text ++ (outs.map (fun o => o ++ ['\n'])).flatten := by
  suffices h : ∀ acc : Str,
      outs.foldl (fun acc o => acc ++ o ++ ['\n']) acc
        = acc ++ (outs.map (fun o => o ++ ['\n'])).flatten by
    simpa [ocrAccum] using h text
  induction outs with
  | nil => intro acc; simp
  | cons o os ih =>
    intro acc
    rw [List.foldl_cons, ih]
    simp

theorem pstrip_eq_nil_of_all_ws (s : Str) (h : ∀ c ∈ s, isWS c) : pstrip s = [] := by
  have h1 : s.dropWhile isWS = [] := List.dropWhile_eq_nil_iff.mpr h
  simp [pstrip, h1]

theorem dropWhile_append_of_all (p : Char → Bool) (a b : Str) (h : ∀ c ∈ a, p c) :
    (a ++ b).dropWhile p = b.dropWhile p := by
  induction a with
  | nil => simp
  | cons c cs ih =>
    have hc : p c = true := h c (by simp)
    have hcs : ∀ x ∈ cs, p x := fun x hx => h x (by simp [hx])
    simp [List.dropWhile_cons, hc, ih hcs]

theorem pstrip_append_ws (s t : Str) (ht : ∀ c ∈ t, isWS c) :
    pstrip (s ++ t) = pstrip s := by
  unfold pstrip
  by_cases hall : ∀ c ∈ s, isWS c
  · have h1 : (s ++ t).dropWhile isWS = [] := by
      refine List.dropWhile_eq_nil_iff.mpr ?_
      intro c hc
      rcases List.mem_append.mp hc with h | h
      · exact hall c h
      · exact ht c h
    have h2 : s.dropWhile isWS = [] := List.dropWhile_eq_nil_iff.mpr hall
    simp [h1, h2]
  · have hne : s.dropWhile isWS ≠ [] := by
      intro hnil
      exact hall (List.dropWhile_eq_nil_iff.mp hnil)
    have h1 : (s ++ t).dropWhile isWS = s.dropWhile isWS ++ t := by
      induction s with
      | nil => simp at hne
      | cons c cs ih =>
        by_cases hc : isWS c
        · have hcs : cs.dropWhile isWS ≠ [] := by
            intro hnil
            apply hne
            simp [List.dropWhile_cons, hc, hnil]
          have hcs2 : ¬ ∀ x ∈ cs, isWS x := by
            intro hx
            exact hcs (List.dropWhile_eq_nil_iff.mpr hx)
          have := ih ?_ hcs
          · simp [List.dropWhile_cons, hc]
            simpa [List.dropWhile_cons, hc] using this
          · exact hcs2
        · simp [List.dropWhile_cons, hc]
    rw [h1]
    rw [List.reverse_append]
    rw [dropWhile_append_of_all isWS t.reverse _ (by intro c hc; exact ht c (List.mem_reverse.mp hc))]

/-! ## Model selector (src/app.py, `select_supported_model` and `PREFERRED_MODELS`)

A listing entry is either a Python dict or an attribute-bearing object; in
both shapes the code reads `name`, `supportedMethods` and `methods`
(missing keys/attributes model as `none`). -/

inductive ModelEntry where
  | dict (name : Option Str) (supportedMethods : Option (List Str)) (methods : Option (List Str))
  | obj (name : Option Str) (supportedMethods : Option (List Str)) (methods : Option (List Str))

/-- `m.get("name")` / `getattr(m, "name", None)`. -/
def entryName : ModelEntry → Option Str
  | ModelEntry.dict n _ _ => n
  | ModelEntry.obj n _ _ => n

/-- Python `a or b or []` over two optional lists (`None` and `[]` are falsy). -/
def orListFallback (a b : Option (List Str)) : List Str :=
  match a with
  | some (x :: xs) => x :: xs
  | _ =>
    match b with
    | some (x :: xs) => x :: xs
    | _ => []

/-- `m.get("supportedMethods") or m.get("methods") or []` (same for `getattr`). -/
def entryMethods : ModelEntry → List Str
  | ModelEntry.dict _ sm ms => orListFallback sm ms
  | ModelEntry.obj _ sm ms => orListFallback sm ms

/-- Python truthiness of an optional string: `None` and `""` are falsy. -/
def truthyName : Option Str → Bool
  | none => false
  | some s => !s.isEmpty

/-- `"generate" in str(x).lower()`. -/
def genMatch (x : Str) : Bool := isSub "generate".data (pyLower x)

/-- One iteration of the listing loop: yield the entry name when
`if name and methods:` holds and some method matches `"generate"`. -/
def scanOne (m : ModelEntry) : Option Str :=
  let name := entryName m
  let methods := entryMethods m
  if truthyName name && !methods.isEmpty then
    if methods.any genMatch then name else none
  else
    none

/-- The static preference list `PREFERRED_MODELS`. -/
def PREFERRED_MODELS : List Str :=
  ["gemini-2.5-pro".data,
   "gemini-pro".data,
   "gemini-2.5-flash".data,
   "gemini-1.5".data,
   "gemini-1.5-flash".data]

/-- `pref = preferred_list or PREFERRED_MODELS` (Python truthiness: `None`
and `[]` both fall back). -/
def prefListOf (preferred_list : Option (List Str)) : List Str :=
  match preferred_list with
  | some (x :: xs) => x :: xs
  | _ => PREFERRED_MODELS

/-- `select_supported_model(preferred_list=None)` from src/app.py.  The
`genai.list_models()` call either raises (`Except.error`) or yields a list of
entries; the loop returns the first name passing `scanOne`, and both on a
raise and on a matchless listing the code falls back to the first entry of
the preference list (`return None` only when that list is empty). -/
def select_supported_model (listing : Except Unit (List ModelEntry))
    (preferred_list : Option (List Str)) : Option Str :=
  let pref := prefListOf preferred_list
  match listing with
  | Except.ok models =>
    match models.findSome? scanOne with
    | some name => some name
    | none => pref.head?
  | Except.error _ => pref.head?

/-! ## Analyzer (src/app.py, `analyze_resume`)

The prompt is an f-string: a fixed preamble, the resume text, a trailing
newline-and-indent, and — when a job description is supplied and truthy —
a second block around the job-description text. -/

/-- Literal text of the prompt before `{resume_text}` (lines 464-469). -/
def PROMPT_BEFORE_RESUME : Str :=
  ("\n    You are an experienced HR with Technical Experience in the field of any one job role from Data Science, Data Analyst, DevOPS, Machine Learning Engineer, Prompt Engineer, AI Engineer, Full Stack Web Development, Big Data Engineering, Marketing Analyst, Human Resource Manager, Software Developer your task is to review the provided resume.\n    Please share your professional evaluation on whether the candidate's profile aligns with the role.ALso mention Skills he already have and siggest some skills to imorve his resume , alos suggest some course he might take to improve the skills.Highlight the strengths and weaknesses.\n\n    Resume:\n    ").data

/-- Literal text of the prompt after `{resume_text}` (line 470). -/
def PROMPT_AFTER_RESUME : Str := "\n    ".data

/-- Literal text of the appended block before `{job_description}` (lines 473-476). -/
def JD_BEFORE : Str :=
  "\n        Additionally, compare this resume to the following job description:\n        \n        Job Description:\n        ".data

/-- Literal text of the appended block after `{job_description}` (lines 478-480). -/
def JD_AFTER : Str :=
  "\n        \n        Highlight the strengths and weaknesses of the applicant in relation to the specified job requirements.\n        ".data

/-- `base_prompt` as composed by lines 464-480 (`if job_description:` is a
Python truthiness test, so `None` and `""` both skip the second block). -/
def build_prompt (resume_text : Str) (job_description : Option Str) : Str :=
  let base := PROMPT_BEFORE_RESUME ++ resume_text ++ PROMPT_AFTER_RESUME
  match job_description with
  | some j => if j.isEmpty then base else base ++ JD_BEFORE ++ j ++ JD_AFTER
  | none => base

/-! ### Error classification (lines 484-543) -/

/-- Details appended for an invalid-credential message (lines 489-492). -/
def INVALID_KEY_LINES : List Str :=
  ["❌ API key is invalid or incorrect".data,
   "   → Check that your .env file contains: GOOGLE_API_KEY=your_key (no quotes)".data,
   "   → Verify the key is correct at: https://makersuite.google.com/app/apikey".data]

/-- Details appended for a permission-denied message (lines 493-496). -/
def PERMISSION_LINES : List Str :=
  ["❌ Permission denied - API key may be restricted".data,
   "   → Remove API key restrictions temporarily (APIs & Services -> Credentials)".data,
   "   → Or add 'Generative Language API' to allowed APIs for this key".data]

/-- Details appended for a quota / rate-limit message (lines 497-525). -/
def QUOTA_LINES : List Str :=
  ["❌ Quota Exceeded - API Usage Limit Reached".data,
   "".data,
   "📊 **What this means:**".data,
   "   You've reached your API usage limit for Google Generative AI.".data,
   "".data,
   "🔧 **How to fix:**".data,
   "".data,
   "   **Option 1: Wait and Retry (Free Tier)**".data,
   "   → Free tier has daily/minute limits that reset over time".data,
   "   → Wait a few minutes or hours and try again".data,
   "   → Check quota limits: https://console.cloud.google.com/apis/api/generativelanguage.googleapis.com/quotas".data,
   "".data,
   "   **Option 2: Enable Billing (Recommended)**".data,
   "   → Go to: https://console.cloud.google.com/billing".data,
   "   → Link a billing account to your project".data,
   "   → This increases your quota limits significantly".data,
   "".data,
   "   **Option 3: Request Quota Increase**".data,
   "   → Go to: https://console.cloud.google.com/apis/api/generativelanguage.googleapis.com/quotas".data,
   "   → Select your project and request a quota increase".data,
   "   → This may require billing to be enabled".data,
   "".data,
   "   **Option 4: Use a Different API Key**".data,
   "   → Create a new project with a new API key".data,
   "   → Get new key: https://makersuite.google.com/app/apikey".data,
   "".data,
   "💡 **Tip:** Check your current usage at:".data,
   "   https://console.cloud.google.com/apis/api/generativelanguage.googleapis.com/metrics".data]

/-- Details appended for a billing message (lines 526-528). -/
def BILLING_LINES : List Str :=
  ["❌ Billing not enabled".data,
   "   → Enable billing in Google Cloud Console for your project".data]

/-- The quick-fix checklist (lines 534-541). -/
def CHECKLIST_LINES : List Str :=
  ["".data,
   "📋 Quick Fix Checklist:".data,
   "   1. Verify .env file exists in project root".data,
   "   2. Check .env contains: GOOGLE_API_KEY=your_key (no quotes, no spaces)".data,
   "   3. Enable 'Generative Language API' in Google Cloud Console".data,
   "   4. Ensure billing is enabled for your Google Cloud project".data,
   "   5. Remove API key restrictions temporarily while testing".data,
   "   6. Restart the application after making changes".data]

/-- The `if`/`elif` classification of lines 489-530: pick the detail lines
from the lower-cased exception message. -/
def classifyDetails (e : Str) : List Str :=
  let msg := pyLower e
  if isSub "api key not valid".data msg || isSub "api_key_invalid".data msg
      || isSub "invalid api key".data msg then
    INVALID_KEY_LINES
  else if isSub "permission denied".data msg || isSub "403".data msg then
    PERMISSION_LINES
  else if isSub "quota".data msg || isSub "429".data msg || isSub "rate limit".data msg
      || isSub "resource exhausted".data msg then
    QUOTA_LINES
  else if isSub "billing".data msg then
    BILLING_LINES
  else
    ["❌ Error: ".data ++ e]

/-- Lines 532-541: the checklist is appended when `error_details` is empty
(never, by then) or its first line, lower-cased, contains `"api key"` but
not `"quota"`. -/
def errorDetails (e : Str) : List Str :=
  let d := classifyDetails e
  let h := pyLower (d.headD [])
  if d.isEmpty || (isSub "api key".data h && !(isSub "quota".data h)) then
    d ++ CHECKLIST_LINES
  else
    d

/-- `"\n".join(error_details)` (line 543). -/
def joinLines (lines : List Str) : Str := List.intercalate ['\n'] lines

/-- Outcomes of the remote calls `analyze_resume` makes, supplied as data:
the `genai.list_models()` outcome, whether `genai.GenerativeModel(name)`
raises (and with what message), and the `model.generate_content(prompt)`
outcome — either the raised exception's message or the response's text
(`getattr(response, "text", str(response))`). -/
structure RemoteEnv where
  listing : Except Unit (List ModelEntry)
  initFail : Option Str
  generate : Except Str Str

/-- The value `analyze_resume` produces: the early-return error dict, the
returned analysis string, or a raised `RuntimeError` message. -/
inductive AnalyzeResult where
  | errorDict (msg : Str)
  | analysis (text : Str)
  | raised (msg : Str)
deriving DecidableEq

/-- Observable trace of one `analyze_resume` call: its result, how many
remote model-listing and content-generation calls were attempted, whether
the `"No suitable model found"` branch ran, and the prompt passed to
`generate_content` when that call was made. -/
structure AnalyzeTrace where
  result : AnalyzeResult
  listCalls : Nat
  genCalls : Nat
  hitNoModel : Bool
  sentPrompt : Option Str

/-- Message of the configuration error raised at lines 454-457. -/
def NO_MODEL_MSG : Str :=
  ("No suitable model found. Please check your API key and ensure you have access to Gemini models. Available models can be listed at https://ai.google.dev/models").data

/-- Message of the initialization error raised at line 462. -/
def initFailMsg (name em : Str) : Str :=
  "Failed to initialize model '".data ++ name ++ "': ".data ++ em

/-- `analyze_resume(resume_text, job_description=None)` from src/app.py:
empty resume text returns the error dict with no remote call; otherwise the
model selector runs (one listing attempt), a missing model raises the
configuration error, a failing constructor raises its error, and the
composed prompt goes to `generate_content`, whose failure is classified
into `errorDetails` and raised joined by newlines, and whose success yields
the stripped response text. -/
def analyze_resume (env : RemoteEnv) (resume_text : Str) (job_description : Option Str) :
    AnalyzeTrace :=
  if resume_text.isEmpty then
    { result := AnalyzeResult.errorDict "Resume text is required for analysis.".data,
      listCalls := 0, genCalls := 0, hitNoModel := false, sentPrompt := none }
  else
    match select_supported_model env.listing none with
    | none =>
      { result := AnalyzeResult.raised NO_MODEL_MSG,
        listCalls := 1, genCalls := 0, hitNoModel := true, sentPrompt := none }
    | some name =>
      match env.initFail with
      | some em =>
        { result := AnalyzeResult.raised (initFailMsg name em),
          listCalls := 1, genCalls := 0, hitNoModel := false, sentPrompt := none }
      | none =>
        let base_prompt := build_prompt resume_text job_description
        match env.generate with
        | Except.error e =>
          { result := AnalyzeResult.raised (joinLines (errorDetails e)),
            listCalls := 1, genCalls := 1, hitNoModel := false,
            sentPrompt := some base_prompt }
        | Except.ok resp =>
          { result := AnalyzeResult.analysis (pstrip resp),
            listCalls := 1, genCalls := 1, hitNoModel := false,
            sentPrompt := some base_prompt }

/-! ## Further helper lemmas -/

theorem pstrip_eq_nil_iff (s : Str) : pstrip s = [] ↔ ∀ c ∈ s, isWS c := by
  constructor
  · intro h c hc
    have h1 : (s.dropWhile isWS).reverse.dropWhile isWS = [] := by
      have := congrArg List.reverse h
      simpa [pstrip] using this
    have h2 : ∀ x ∈ (s.dropWhile isWS).reverse, isWS x := List.dropWhile_eq_nil_iff.mp h1
    have h3 : ∀ x ∈ s.dropWhile isWS, isWS x := by
      intro x hx
      exact h2 x (List.mem_reverse.mpr hx)
    have hsplit : s = s.takeWhile isWS ++ s.dropWhile isWS :=
      (List.takeWhile_append_dropWhile isWS s).symm
    rw [hsplit] at hc
    rcases List.mem_append.mp hc with h4 | h4
    · exact List.mem_takeWhile_imp h4
    · exact h3 c h4
  · exact pstrip_eq_nil_of_all_ws s

theorem leadsWith_iff (pat s : Str) : leadsWith pat s = true ↔ ∃ r, s = pat ++ r := by
  induction pat generalizing s with
  | nil => simp [leadsWith]
  | cons p ps ih =>
    cases s with
    | nil =>
      simp [leadsWith]
    | cons c cs =>
      rw [leadsWith]
      constructor
      · intro h
        have h1 : p = c ∧ leadsWith ps cs = true := by
          simpa [Bool.and_eq_true, decide_eq_true_eq] using h
        obtain ⟨r, hr⟩ := (ih cs).mp h1.2
        exact ⟨r, by simp [h1.1, hr]⟩
      · rintro ⟨r, hr⟩
        have hc : c = p := by
          have := congrArg List.head? hr
          simpa using this
        have hcs : cs = ps ++ r := by
          have := congrArg List.tail hr
          simpa using this
        have h2 : leadsWith ps cs = true := (ih cs).mpr ⟨r, hcs⟩
        simp [hc, h2]

theorem isSub_iff (pat s : Str) : isSub pat s = true ↔ ∃ a b, s = a ++ pat ++ b := by
  induction s with
  | nil =>
    rw [isSub]
    rw [leadsWith_iff]
    constructor
    · rintro ⟨r, hr⟩
      exact ⟨[], r, by simpa using hr⟩
    · rintro ⟨a, b, hab⟩
      have ha : a = [] := by
        cases a with
        | nil => rfl
        | cons x xs => simp at hab
      subst ha
      exact ⟨b, by simpa using hab⟩
  | cons c t ih =>
    rw [isSub, Bool.or_eq_true, leadsWith_iff, ih]
    constructor
    · rintro (⟨r, hr⟩ | ⟨a, b, hab⟩)
      · exact ⟨[], r, by simpa using hr⟩
      · exact ⟨c :: a, b, by simp [hab]⟩
    · rintro ⟨a, b, hab⟩
      cases a with
      | nil =>
        exact Or.inl ⟨b, by simpa using hab⟩
      | cons x xs =>
        right
        refine ⟨xs, b, ?_⟩
        have := congrArg List.tail hab
        simpa using this

theorem isSub_of_infix (pat a b : Str) : isSub pat (a ++ pat ++ b) = true :=
  (isSub_iff pat (a ++ pat ++ b)).mpr ⟨a, b, rfl⟩

/-! ## Claims about the text extractor -/

/-- C4: for a PDF whose direct extraction succeeds (no raise) and yields
non-empty trimmed text, `extract_text_from_pdf` returns exactly the trimmed
concatenation of the per-page text layers and the OCR fallback never runs —
for any OCR data whatsoever. -/
theorem extract_fast_path_no_ocr (pages : List (Option Str)) (ocrPages : List Str)
    (ocrFails : Bool) (h : pstrip (directText pages) ≠ []) :
    extract_text_from_pdf ⟨pages, false, ocrPages, ocrFails⟩ =
      { result := Except.ok (pstrip ((pages.map (fun p => p.getD [])).flatten)),
        ocrInvoked := false } := by
  have hfalse : (pstrip (directText pages)).isEmpty = false :=
    List.isEmpty_eq_false.mpr h
  unfold extract_text_from_pdf
  simp only [hfalse]
  rw [directText_eq_flatten]
  simp

/-- Closed witness for the C4 theorem at a concrete one-page PDF. -/
theorem extract_fast_path_no_ocr_witness :
    pstrip (directText [some "ab".data]) ≠ [] ∧
      extract_text_from_pdf ⟨[some "ab".data], false, ["zz".data], true⟩ =
        { result := Except.ok (pstrip (([some "ab".data].map (fun p => p.getD [])).flatten)),
          ocrInvoked := false } :=
  ⟨by decide, extract_fast_path_no_ocr [some "ab".data] ["zz".data] true (by decide)⟩

theorem flatten_newline_eq_intercalate (o : Str) (rest : List Str) :
    (((o :: rest).map (fun x => x ++ ['\n'])).flatten)
      = List.intercalate ['\n'] (o :: rest) ++ ['\n'] := by
  induction rest generalizing o with
  | nil => simp [List.intercalate]
  | cons r rs ih =>
    have hic : List.intercalate ['\n'] (o :: r :: rs)
        = o ++ ['\n'] ++ List.intercalate ['\n'] (r :: rs) := by
      simp [List.intercalate, List.intersperse_cons_cons]
    rw [hic]
    have hl : ((o :: r :: rs).map (fun x => x ++ ['\n'])).flatten
        = (o ++ ['\n']) ++ ((r :: rs).map (fun x => x ++ ['\n'])).flatten := by
      simp
    rw [hl, ih r]
    simp

theorem pstrip_flatten_newline (os : List Str) :
    pstrip ((os.map (fun o => o ++ ['\n'])).flatten)
      = pstrip (List.intercalate ['\n'] os) := by
  cases os with
  | nil => simp [List.intercalate]
  | cons o rest =>
    rw [flatten_newline_eq_intercalate]
    exact pstrip_append_ws _ ['\n'] (by intro c hc; simp at hc; simp [hc, isWS])

theorem directText_eq_nil_of_blank (pages : List (Option Str))
    (h : ∀ p ∈ pages, p = none ∨ p = some []) : directText pages = [] := by
  rw [directText_eq_flatten]
  rw [List.flatten_eq_nil_iff]
  intro l hl
  rcases List.mem_map.mp hl with ⟨p, hp, hpl⟩
  rcases h p hp with h1 | h1 <;> simp [h1] at hpl <;> exact hpl

/-- C5: for a PDF with no text layer — every page's direct extraction result
is `None` or empty and the direct stage does not raise — the extractor runs
the OCR fallback and returns the per-page OCR outputs joined by newline
separators, trimmed. -/
theorem extract_ocr_path_joins_pages (pages : List (Option Str)) (ocrPages : List Str)
    (h : ∀ p ∈ pages, p = none ∨ p = some []) :
    extract_text_from_pdf ⟨pages, false, ocrPages, false⟩ =
      { result := Except.ok (pstrip (List.intercalate ['\n'] ocrPages)),
        ocrInvoked := true } := by
  have hdt : directText pages = [] := directText_eq_nil_of_blank pages h
  unfold extract_text_from_pdf
  simp only [hdt]
  have hp : pstrip ([] : Str) = [] := rfl
  rw [hp]
  simp only [List.isEmpty_nil]
  rw [ocrAccum_eq_append]
  simp only [List.nil_append]
  rw [pstrip_flatten_newline]
  simp

/-- Closed witness for the C5 theorem at a concrete two-page scan. -/
theorem extract_ocr_path_joins_pages_witness :
    (∀ p ∈ [none, some ([] : Str)], p = none ∨ p = some []) ∧
      extract_text_from_pdf ⟨[none, some []], false, ["page one".data, "page two".data], false⟩ =
        { result := Except.ok (pstrip (List.intercalate ['\n'] ["page one".data, "page two".data])),
          ocrInvoked := true } :=
  ⟨by decide,
   extract_ocr_path_joins_pages [none, some []] ["page one".data, "page two".data] (by decide)⟩

/-- C6 counterexample: a PDF where both stages fail — but the direct stage
had already accumulated the text `"abc"` before raising — makes
`extract_text_from_pdf` return `"abc"`, not the empty string, refuting the
claim's "(or both fail)" disjunct as stated. -/
theorem extract_both_fail_counterexample :
    (extract_text_from_pdf ⟨[some "abc".data], true, [], true⟩).result
        = Except.ok "abc".data ∧
      "abc".data ≠ ([] : Str) :=
  ⟨rfl, by decide⟩

/-- C6 (amended): when both stages yield no text — every trimmed piece, the
accumulated direct text included, is empty — the extractor returns the empty
string without raising, whatever failures occurred in either stage. -/
theorem extract_blank_returns_empty (doc : PdfDoc)
    (hd : pstrip (directText doc.pages) = [])
    (ho : ∀ o ∈ doc.ocrPages, pstrip o = []) :
    extract_text_from_pdf doc = { result := Except.ok [], ocrInvoked := true } := by
  have hdws : ∀ c ∈ directText doc.pages, isWS c := (pstrip_eq_nil_iff _).mp hd
  have hall : ∀ c ∈ ocrAccum (directText doc.pages) doc.ocrPages, isWS c := by
    rw [ocrAccum_eq_append]
    intro c hc
    rcases List.mem_append.mp hc with h1 | h1
    · exact hdws c h1
    · rcases List.mem_flatten.mp h1 with ⟨l, hl, hcl⟩
      rcases List.mem_map.mp hl with ⟨o, hoo, hol⟩
      rw [← hol] at hcl
      rcases List.mem_append.mp hcl with h2 | h2
      · exact (pstrip_eq_nil_iff o).mp (ho o hoo) c h2
      · simp at h2
        simp [h2, isWS]
  have hres : pstrip (ocrAccum (directText doc.pages) doc.ocrPages) = [] :=
    pstrip_eq_nil_of_all_ws _ hall
  unfold extract_text_from_pdf
  simp only [hd]
  simp [hres]

/-- Closed witness for the amended C6 theorem: a blank one-page PDF whose
direct stage raises and whose OCR yields only whitespace. -/
theorem extract_blank_returns_empty_witness :
    pstrip (directText [some "  ".data, none]) = [] ∧
      (∀ o ∈ ["  ".data, ([] : Str)], pstrip o = []) ∧
      extract_text_from_pdf ⟨[some "  ".data, none], true, ["  ".data, []], true⟩ =
        { result := Except.ok [], ocrInvoked := true } :=
  ⟨by decide, by decide,
   extract_blank_returns_empty ⟨[some "  ".data, none], true, ["  ".data, []], true⟩
     (by decide) (by decide)⟩

/-- C9: no failure of either extraction stage escapes `extract_text_from_pdf`
— the result is always a normal return — and the text accumulated before a
direct-stage failure is carried into the OCR accumulation rather than
discarded, while an OCR-stage failure leaves the outputs gathered before it
in force (the model's `ocrPages` are exactly those outputs, and the flag
`ocrFails` cannot change the returned text). -/
theorem extract_failures_degrade_not_abort (doc : PdfDoc) :
    (∃ s, (extract_text_from_pdf doc).result = Except.ok s) ∧
      (extract_text_from_pdf { doc with directFails := true }).result
        = Except.ok (pstrip (ocrAccum (directText doc.pages) doc.ocrPages)) ∧
      (extract_text_from_pdf { doc with ocrFails := true }).result
        = (extract_text_from_pdf { doc with ocrFails := false }).result := by
  refine ⟨?_, ?_, ?_⟩
  · by_cases hc : (!doc.directFails && !(pstrip (directText doc.pages)).isEmpty) = true
    · refine ⟨pstrip (directText doc.pages), ?_⟩
      unfold extract_text_from_pdf
      simp [hc]
    · refine ⟨pstrip (ocrAccum (directText doc.pages) doc.ocrPages), ?_⟩
      unfold extract_text_from_pdf
      rw [Bool.not_eq_true] at hc
      simp [hc]
  · unfold extract_text_from_pdf
    simp
  · unfold extract_text_from_pdf
    simp

/-! ## Claims about the analyzer -/

/-- C3: empty resume text makes `analyze_resume` return the input-validation
error dict immediately; neither the model-listing call nor the
content-generation call is attempted, whatever the remote environment and
job description. -/
theorem analyze_empty_resume_no_remote_calls (env : RemoteEnv) (jd : Option Str) :
    analyze_resume env [] jd =
      { result := AnalyzeResult.errorDict "Resume text is required for analysis.".data,
        listCalls := 0, genCalls := 0, hitNoModel := false, sentPrompt := none } := rfl

theorem select_default_isSome (listing : Except Unit (List ModelEntry)) :
    (select_supported_model listing none).isSome = true := by
  unfold select_supported_model prefListOf
  cases listing with
  | error u => rfl
  | ok models =>
    cases h : models.findSome? scanOne with
    | none => simp [h, PREFERRED_MODELS]
    | some name => simp [h]

theorem joinLines_head_append (x : Str) (xs : List Str) :
    ∃ u, joinLines (x :: xs) = x ++ u := by
  cases xs with
  | nil => exact ⟨[], rfl⟩
  | cons y ys =>
    exact ⟨'\n' :: (List.intersperse ['\n'] (y :: ys)).flatten, rfl⟩

theorem classifyDetails_head (e : Str) :
    ∃ t rest, classifyDetails e = ('❌' :: t) :: rest := by
  simp only [classifyDetails]
  split_ifs
  · exact ⟨_, _, rfl⟩
  · exact ⟨_, _, rfl⟩
  · exact ⟨_, _, rfl⟩
  · exact ⟨_, _, rfl⟩
  · exact ⟨" Error: ".data ++ e, [], rfl⟩

theorem errorDetails_head (e : Str) :
    ∃ t rest, errorDetails e = ('❌' :: t) :: rest := by
  obtain ⟨t, rest, h⟩ := classifyDetails_head e
  unfold errorDetails
  rw [h]
  by_cases hc : ((('❌' :: t) :: rest).isEmpty
      || (isSub "api key".data (pyLower ((('❌' :: t) :: rest).headD []))
          && !isSub "quota".data (pyLower ((('❌' :: t) :: rest).headD [])))) = true
  · rw [if_pos hc]
    exact ⟨t, rest ++ CHECKLIST_LINES, rfl⟩
  · rw [if_neg hc]
    exact ⟨t, rest, rfl⟩

/-- C10: with the default (non-empty) preference list the model selector
always returns a model name — whether the listing succeeds with a match,
succeeds without one, or raises — so the `"No suitable model found"`
configuration branch of `analyze_resume` can never run: its flag stays
false and its error message is never the raised one. -/
theorem no_model_branch_unreachable (env : RemoteEnv) (r : Str) (jd : Option Str) :
    (select_supported_model env.listing none).isSome = true ∧
      (analyze_resume env r jd).hitNoModel = false ∧
      (analyze_resume env r jd).result ≠ AnalyzeResult.raised NO_MODEL_MSG := by
  refine ⟨select_default_isSome env.listing, ?_⟩
  unfold analyze_resume
  by_cases hr : r.isEmpty
  · rw [if_pos hr]
    exact ⟨rfl, fun h => AnalyzeResult.noConfusion h⟩
  · rw [if_neg hr]
    obtain ⟨name, hname⟩ := Option.isSome_iff_exists.mp (select_default_isSome env.listing)
    rw [hname]
    cases hinit : env.initFail with
    | some em =>
      refine ⟨rfl, ?_⟩
      intro h
      have hmsg : initFailMsg name em = NO_MODEL_MSG :=
        AnalyzeResult.raised.inj h
      have h1 : (initFailMsg name em).head? = NO_MODEL_MSG.head? := by rw [hmsg]
      have h2 : (initFailMsg name em).head? = some 'F' := rfl
      have h3 : NO_MODEL_MSG.head? = some 'N' := rfl
      rw [h2, h3] at h1
      exact absurd h1 (by decide)
    | none =>
      cases hgen : env.generate with
      | error e =>
        refine ⟨rfl, ?_⟩
        intro h
        have hmsg : joinLines (errorDetails e) = NO_MODEL_MSG :=
          AnalyzeResult.raised.inj h
        obtain ⟨t, rest, hd⟩ := errorDetails_head e
        obtain ⟨u, hu⟩ := joinLines_head_append ('❌' :: t) rest
        rw [hd, hu] at hmsg
        have h1 : (('❌' :: t) ++ u).head? = NO_MODEL_MSG.head? := by rw [hmsg]
        have h2 : (('❌' :: t) ++ u).head? = some '❌' := rfl
        have h3 : NO_MODEL_MSG.head? = some 'N' := rfl
        rw [h2, h3] at h1
        exact absurd h1 (by decide)
      | ok resp =>
        exact ⟨rfl, fun h => AnalyzeResult.noConfusion h⟩

/-- C7: with non-empty resume text, a non-empty job description and a model
that initializes, `analyze_resume` sends the composed prompt to
`generate_content`, and that prompt holds the resume text and the job
description as substrings, the job-description block strictly after the
resume block. -/
theorem prompt_resume_then_jd (env : RemoteEnv) (r j : Str)
    (hr : r ≠ []) (hj : j ≠ []) (hinit : env.initFail = none) :
    (analyze_resume env r (some j)).sentPrompt = some (build_prompt r (some j)) ∧
      build_prompt r (some j)
        = PROMPT_BEFORE_RESUME ++ r
            ++ (PROMPT_AFTER_RESUME ++ JD_BEFORE) ++ j ++ JD_AFTER ∧
      isSub r (build_prompt r (some j)) = true ∧
      isSub j (build_prompt r (some j)) = true ∧
      (∃ a b, build_prompt r (some j) = a ++ r ++ b ∧ isSub j b = true) := by
  have hje : j.isEmpty = false := List.isEmpty_eq_false.mpr hj
  have hre : r.isEmpty = false := List.isEmpty_eq_false.mpr hr
  have hb : build_prompt r (some j)
      = PROMPT_BEFORE_RESUME ++ r
          ++ (PROMPT_AFTER_RESUME ++ JD_BEFORE) ++ j ++ JD_AFTER := by
    simp [build_prompt, hje, List.append_assoc]
  refine ⟨?_, hb, ?_, ?_, ?_⟩
  · unfold analyze_resume
    rw [if_neg (by simp [hre])]
    obtain ⟨name, hname⟩ := Option.isSome_iff_exists.mp (select_default_isSome env.listing)
    rw [hname, hinit]
    cases hgen : env.generate with
    | error e => rfl
    | ok resp => rfl
  · refine (isSub_iff r _).mpr
      ⟨PROMPT_BEFORE_RESUME,
       (PROMPT_AFTER_RESUME ++ JD_BEFORE) ++ j ++ JD_AFTER, ?_⟩
    rw [hb]
    simp [List.append_assoc]
  · refine (isSub_iff j _).mpr
      ⟨PROMPT_BEFORE_RESUME ++ r ++ (PROMPT_AFTER_RESUME ++ JD_BEFORE), JD_AFTER, ?_⟩
    rw [hb]
  · refine ⟨PROMPT_BEFORE_RESUME,
      (PROMPT_AFTER_RESUME ++ JD_BEFORE) ++ j ++ JD_AFTER, ?_, ?_⟩
    · rw [hb]
      simp [List.append_assoc]
    · exact (isSub_iff j _).mpr ⟨PROMPT_AFTER_RESUME ++ JD_BEFORE, JD_AFTER, rfl⟩

/-- Closed witness for the C7 theorem at a concrete resume, job description
and environment. -/
theorem prompt_resume_then_jd_witness :
    ("5 years Python".data ≠ ([] : Str) ∧ "backend role".data ≠ ([] : Str) ∧
        (RemoteEnv.mk (Except.error ()) none (Except.ok "fine".data)).initFail = none) ∧
      ((analyze_resume (RemoteEnv.mk (Except.error ()) none (Except.ok "fine".data))
            "5 years Python".data (some "backend role".data)).sentPrompt
          = some (build_prompt "5 years Python".data (some "backend role".data)) ∧
        build_prompt "5 years Python".data (some "backend role".data)
          = PROMPT_BEFORE_RESUME ++ "5 years Python".data
              ++ (PROMPT_AFTER_RESUME ++ JD_BEFORE) ++ "backend role".data ++ JD_AFTER ∧
        isSub "5 years Python".data
            (build_prompt "5 years Python".data (some "backend role".data)) = true ∧
        isSub "backend role".data
            (build_prompt "5 years Python".data (some "backend role".data)) = true ∧
        (∃ a b, build_prompt "5 years Python".data (some "backend role".data)
            = a ++ "5 years Python".data ++ b ∧ isSub "backend role".data b = true)) :=
  ⟨⟨by decide, by decide, rfl⟩,
   prompt_resume_then_jd (RemoteEnv.mk (Except.error ()) none (Except.ok "fine".data))
     "5 years Python".data "backend role".data (by decide) (by decide) rfl⟩

/-! ## Claims about the model selector -/

/-- Modelled from the spec's words ("Return the first such model's name, in
listed order"), for comparison with the code: the first listed entry whose
capability list contains a case-insensitive "generate" match, and that
entry's name field — which may be `None`. -/
def specFirstGenerateName (models : List ModelEntry) : Option (Option Str) :=
  ((models.filter (fun m => (entryMethods m).any genMatch)).head?).map entryName

/-- The condition under which the listing loop returns an entry: truthy
name, truthy method list, and a method matching "generate". -/
def usableGenerate (m : ModelEntry) : Bool :=
  truthyName (entryName m) && !(entryMethods m).isEmpty && (entryMethods m).any genMatch

/-- Name of the first entry the listing loop would return. -/
def firstUsableGenerateName (models : List ModelEntry) : Option Str :=
  ((models.filter usableGenerate).head?).bind entryName

theorem scanOne_eq_none_of_not_usable (m : ModelEntry) (h : usableGenerate m = false) :
    scanOne m = none := by
  unfold scanOne
  unfold usableGenerate at h
  by_cases h1 : (truthyName (entryName m) && !(entryMethods m).isEmpty) = true
  · rw [h1] at h
    simp only [Bool.true_and] at h
    simp [h1, h]
  · rw [Bool.not_eq_true] at h1
    simp [h1]

theorem scanOne_eq_name_of_usable (m : ModelEntry) (h : usableGenerate m = true) :
    scanOne m = entryName m := by
  unfold usableGenerate at h
  simp only [Bool.and_eq_true] at h
  unfold scanOne
  simp [h.1.1, h.1.2, h.2]

theorem entryName_some_of_usable (m : ModelEntry) (h : usableGenerate m = true) :
    ∃ n, entryName m = some n := by
  unfold usableGenerate at h
  simp only [Bool.and_eq_true] at h
  cases he : entryName m with
  | none =>
    rw [he] at h
    simp [truthyName] at h
  | some s => exact ⟨s, rfl⟩

theorem findSome_scanOne_eq (models : List ModelEntry) :
    models.findSome? scanOne = firstUsableGenerateName models := by
  induction models with
  | nil => rfl
  | cons m ms ih =>
    rw [List.findSome?_cons]
    by_cases hg : usableGenerate m = true
    · rw [scanOne_eq_name_of_usable m hg]
      obtain ⟨n, hn⟩ := entryName_some_of_usable m hg
      unfold firstUsableGenerateName
      rw [List.filter_cons_of_pos hg]
      simp [hn]
    · have h0 : usableGenerate m = false := by
        rw [Bool.not_eq_true] at hg
        exact hg
      rw [scanOne_eq_none_of_not_usable m h0]
      unfold firstUsableGenerateName
      rw [List.filter_cons_of_neg (by simp [h0])]
      exact ih

/-- C2 counterexample: in a listing whose first capability-matching entry
has no name (`None`), the claim's "name of the first listed entry whose
supported-capability list matches" is that entry's missing name, yet
`select_supported_model` skips it and returns the second entry's name. -/
theorem select_first_match_counterexample :
    select_supported_model
        (Except.ok
          [ModelEntry.dict none none (some ["generateContent".data]),
           ModelEntry.obj (some "m2".data) (some ["Generate text".data]) none])
        none = some "m2".data ∧
      specFirstGenerateName
          [ModelEntry.dict none none (some ["generateContent".data]),
           ModelEntry.obj (some "m2".data) (some ["Generate text".data]) none]
        = some none := by decide

/-- C2 (amended): on a successful listing the selector returns the name of
the first entry with a truthy name, a truthy capability list and a
case-insensitive "generate" capability match (falling back to the head of
the preference list when no such entry exists); both record shapes are
handled identically; and when the listing raises, it returns the first
entry of the preference list — `"gemini-2.5-pro"` for the default one. -/
theorem select_supported_model_spec (models : List ModelEntry) (p : Option (List Str)) :
    (select_supported_model (Except.ok models) p =
      match firstUsableGenerateName models with
      | some n => some n
      | none => (prefListOf p).head?) ∧
      (∀ n a b, scanOne (ModelEntry.dict n a b) = scanOne (ModelEntry.obj n a b)) ∧
      (∀ pl, select_supported_model (Except.error ()) pl = (prefListOf pl).head?) ∧
      select_supported_model (Except.error ()) none = some "gemini-2.5-pro".data := by
  refine ⟨?_, ?_, ?_, rfl⟩
  · unfold select_supported_model
    dsimp only
    rw [findSome_scanOne_eq]
  · intro n a b
    rfl
  · intro pl
    rfl

/-! ## Claims about error classification -/

set_option maxRecDepth 100000 in
/-- C1 counterexample: the upstream message "API key not valid: quota 429"
contains both "quota" and "429", yet the invalid-credential branch — checked
first — classifies it: the raised diagnostic carries the generic quick-fix
checklist and no quota-remediation guidance. -/
theorem quota_guidance_counterexample :
    isSub "quota".data (pyLower "API key not valid: quota 429".data) = true ∧
      isSub "429".data (pyLower "API key not valid: quota 429".data) = true ∧
      (analyze_resume
            (RemoteEnv.mk (Except.error ()) none
              (Except.error "API key not valid: quota 429".data))
            "r".data none).result
        = AnalyzeResult.raised (joinLines (INVALID_KEY_LINES ++ CHECKLIST_LINES)) ∧
      isSub "Quota Exceeded".data
          (joinLines (errorDetails "API key not valid: quota 429".data)) = false ∧
      isSub "Quick Fix Checklist".data
          (joinLines (errorDetails "API key not valid: quota 429".data)) = true := by
  refine ⟨by decide, by decide, by decide, by decide, by decide⟩

set_option maxRecDepth 100000 in
/-- C1 (amended): when the generate call fails with a message that contains
"quota" and "429" and matches none of the earlier-checked credential or
permission substrings, `analyze_resume` raises exactly the quota diagnostic:
it carries the wait-and-retry, enable-billing, quota-increase and
different-key guidance and not the generic quick-fix checklist. -/
theorem quota_error_guidance (env : RemoteEnv) (r : Str) (jd : Option Str) (e : Str)
    (hr : r ≠ []) (hinit : env.initFail = none) (hgen : env.generate = Except.error e)
    (hq : isSub "quota".data (pyLower e) = true)
    (h429 : isSub "429".data (pyLower e) = true)
    (hk1 : isSub "api key not valid".data (pyLower e) = false)
    (hk2 : isSub "api_key_invalid".data (pyLower e) = false)
    (hk3 : isSub "invalid api key".data (pyLower e) = false)
    (hp1 : isSub "permission denied".data (pyLower e) = false)
    (hp2 : isSub "403".data (pyLower e) = false) :
    (analyze_resume env r jd).result = AnalyzeResult.raised (joinLines QUOTA_LINES) ∧
      isSub "Wait and Retry".data (joinLines QUOTA_LINES) = true ∧
      isSub "Enable Billing".data (joinLines QUOTA_LINES) = true ∧
      isSub "Request Quota Increase".data (joinLines QUOTA_LINES) = true ∧
      isSub "Use a Different API Key".data (joinLines QUOTA_LINES) = true ∧
      isSub "Quick Fix Checklist".data (joinLines QUOTA_LINES) = false := by
  have hre : r.isEmpty = false := List.isEmpty_eq_false.mpr hr
  have hcd : classifyDetails e = QUOTA_LINES := by
    unfold classifyDetails
    rw [if_neg (by simp [hk1, hk2, hk3])]
    rw [if_neg (by simp [hp1, hp2])]
    rw [if_pos (by simp [hq])]
  have hed : errorDetails e = QUOTA_LINES := by
    unfold errorDetails
    rw [hcd]
    rw [if_neg (by decide)]
  refine ⟨?_, by decide, by decide, by decide, by decide, by decide⟩
  unfold analyze_resume
  rw [if_neg (by simp [hre])]
  obtain ⟨name, hname⟩ := Option.isSome_iff_exists.mp (select_default_isSome env.listing)
  rw [hname, hinit, hgen]
  dsimp only
  rw [hed]

set_option maxRecDepth 100000 in
/-- Closed witness for the amended C1 theorem at a concrete quota message. -/
theorem quota_error_guidance_witness :
    ("r".data ≠ ([] : Str) ∧
        isSub "quota".data (pyLower "Quota exceeded (429)".data) = true ∧
        isSub "429".data (pyLower "Quota exceeded (429)".data) = true) ∧
      ((analyze_resume
            (RemoteEnv.mk (Except.error ()) none
              (Except.error "Quota exceeded (429)".data)) "r".data none).result
          = AnalyzeResult.raised (joinLines QUOTA_LINES) ∧
        isSub "Wait and Retry".data (joinLines QUOTA_LINES) = true ∧
        isSub "Enable Billing".data (joinLines QUOTA_LINES) = true ∧
        isSub "Request Quota Increase".data (joinLines QUOTA_LINES) = true ∧
        isSub "Use a Different API Key".data (joinLines QUOTA_LINES) = true ∧
        isSub "Quick Fix Checklist".data (joinLines QUOTA_LINES) = false) :=
  ⟨⟨by decide, by decide, by decide⟩,
   quota_error_guidance
     (RemoteEnv.mk (Except.error ()) none (Except.error "Quota exceeded (429)".data))
     "r".data none "Quota exceeded (429)".data
     (by decide) rfl rfl (by decide) (by decide) (by decide) (by decide) (by decide)
     (by decide) (by decide)⟩

set_option maxRecDepth 100000 in
/-- C8: at the unclassified upstream failure "connection timeout" the code
surfaces the message verbatim but — contrary to the spec and to the code's
own comment "Add quick fix checklist for non-quota errors" — appends no
generic quick-fix checklist, because the append condition demands "api key"
in the first detail line: the raised diagnostic is the single line
"❌ Error: connection timeout". -/
theorem unclassified_error_lacks_checklist :
    errorDetails "connection timeout".data = ["❌ Error: connection timeout".data] ∧
      (analyze_resume
            (RemoteEnv.mk (Except.error ()) none
              (Except.error "connection timeout".data)) "r".data none).result
        = AnalyzeResult.raised "❌ Error: connection timeout".data ∧
      isSub "connection timeout".data
          (joinLines (errorDetails "connection timeout".data)) = true ∧
      isSub "Quick Fix Checklist".data
          (joinLines (errorDetails "connection timeout".data)) = false :=
  ⟨by decide, by decide, by decide, by decide⟩
